import Mathlib

/-!
Verification development for the f1-bot data pipeline.

Shallow embedding of the core acquisition / normalization / computation code:

* `f1/fetch.py` and `f1/api/fetch.py` (cached fetcher),
* `f1/utils.py` (identifier resolution, ranking/filtering),
* `f1/api.py` (response normalization, endpoint aggregation, status check),
* `f1/api/stats.py` (statistical computation engine).

Python side effects are made explicit: fallible code returns `Except PyExc`,
network payloads are passed in as already-received values (an `Option` models
an unavailable response), and Python `dict`s whose key set matters are
embedded as association lists.  Machine reals do not occur on the verified
paths; the telemetry distances are embedded as rationals.
-/

namespace F1Bot

/-- Equality on `Except` results is decidable when it is on both sides. -/
instance {ε α : Type} [DecidableEq ε] [DecidableEq α] : DecidableEq (Except ε α) := fun x y =>
  match x, y with
  | .ok a, .ok b =>
    if h : a = b then isTrue (by rw [h]) else isFalse (fun hh => h (by injection hh))
  | .ok _, .error _ => isFalse (fun hh => Except.noConfusion hh)
  | .error _, .ok _ => isFalse (fun hh => Except.noConfusion hh)
  | .error e, .error f =>
    if h : e = f then isTrue (by rw [h]) else isFalse (fun hh => h (by injection hh))

/-- Kinds of Python exception that can surface on the embedded code paths. -/
inductive PyExc where
  | attributeError
  | typeError
  | missingData
  | driverNotFound
  | keyError
  | indexError
  | valueError
  | zeroDivisionError
  | clientError
  deriving DecidableEq, Repr

/-! ## Cached fetcher, legacy module `f1/fetch.py` -/

/-- The observable outcome of one HTTP GET: a response with a status code and
body text, or a transport-level failure (`aiohttp.ClientError`). -/
inductive HttpOutcome where
  | response (status : Nat) (body : String)
  | transportFail
  deriving DecidableEq, Repr

/-- `f1/fetch.py::send_request`: returns the response object on HTTP 200,
`None` on any other status; a transport failure raises `ClientError`.
The returned response object is represented by its body text. -/
def send_request (o : HttpOutcome) : Except PyExc (Option String) :=
  match o with
  | .transportFail => .error .clientError
  | .response status body => if status == 200 then .ok (some body) else .ok none

/-- `f1/fetch.py::fetch`: `res = await send_request(...); return await res.text()`
inside `try ... except aiohttp.ClientError: return None`.  When `send_request`
yields `None` (non-success status), `None.text()` raises `AttributeError`,
which the `except` clause does not catch. -/
def fetch (o : HttpOutcome) : Except PyExc (Option String) :=
  match send_request o with
  | .error .clientError => .ok none
  | .error e => .error e
  | .ok none => .error .attributeError
  | .ok (some body) => .ok (some body)

/-! ## Cached fetcher, current module `f1/api/fetch.py` -/

/-- Decoded response content: raw bytes for XML, parsed JSON, or plain text
(each represented by its source string). -/
inductive Content where
  | bytes (s : String)
  | jsonDoc (s : String)
  | text (s : String)
  deriving DecidableEq, Repr

/-- HTTP outcome as seen by `f1/api/fetch.py`, which also inspects the
declared content type. -/
inductive ApiHttpOutcome where
  | response (status : Nat) (contentType : String) (body : String)
  | transportFail
  deriving DecidableEq, Repr

/-- Substring test on character lists (Python's `needle in hay`). -/
def charSub (needle : List Char) : List Char → Bool
  | [] => needle.isEmpty
  | c :: rest => (needle == (c :: rest).take needle.length) || charSub needle rest

/-- Substring test on strings (Python's `needle in hay`). -/
def strContains (hay needle : String) : Bool :=
  needle.isEmpty || charSub needle.toList hay.toList

/-- `f1/api/fetch.py::_send_request`: `None` on non-200 status, otherwise the
content decoded according to the declared content type; transport failure
raises `ClientError`. -/
def api_send_request (o : ApiHttpOutcome) : Except PyExc (Option Content) :=
  match o with
  | .transportFail => .error .clientError
  | .response status ct body =>
    if status != 200 then .ok none
    else if strContains ct "application/xml" then .ok (some (.bytes body))
    else if strContains ct "application/json" then .ok (some (.jsonDoc body))
    else .ok (some (.text body))

/-- `f1/api/fetch.py::fetch`: issues `_send_request` (through the cached
session when `useCache`, through `session.disabled()` otherwise — the request
behaviour is identical) and catches `aiohttp.ClientError`, returning `None`. -/
def api_fetch (useCache : Bool) (o : ApiHttpOutcome) : Except PyExc (Option Content) :=
  match useCache, api_send_request o with
  | _, .error .clientError => .ok none
  | _, .error e => .error e
  | _, .ok c => .ok c

/-! ## API status monitor `f1/api.py::check_status` -/

/-- `api.check_status`: `0` when the response is unavailable, else `2` when the
elapsed seconds exceed 5, else (dead branch) `3` when they exceed 15, else `1`.
The response is represented by an optional soup value, the elapsed time by
`delta.seconds`. -/
def check_status (res : Option String) (deltaSeconds : Nat) : Nat :=
  if res.isNone then 0
  else if deltaSeconds > 5 then 2
  else if deltaSeconds > 15 then 3
  else 1

/-! ## String primitives

Lean's built-in `String.toLower`, `String.toNat?` and `String.splitOn` are
defined by position recursion that the kernel cannot evaluate, so the
embedding re-implements them structurally over the character list; the
semantics on the embedded inputs is identical. -/

/-- `str.lower()` (character-wise lowering, as Python does on these inputs). -/
def strToLower (s : String) : String :=
  String.mk (s.data.map Char.toLower)

/-- Digit-string to number: the behaviour of `int(s)` for non-negative
decimal literals, `none` when the string is not all digits. -/
def strToNat? (s : String) : Option Nat :=
  if s.data ≠ [] ∧ s.data.all Char.isDigit then
    some (s.data.foldl (fun n c => 10 * n + (c.toNat - 48)) 0)
  else none

/-- Split helper over character lists. -/
def splitCharAux (c : Char) : List Char → List Char → List (List Char)
  | [], acc => [acc.reverse]
  | x :: t, acc =>
    if x == c then acc.reverse :: splitCharAux c t []
    else splitCharAux c t (x :: acc)

/-- `s.split(c)` for a one-character separator. -/
def splitOnChar (c : Char) (s : String) : List String :=
  (splitCharAux c s.data []).map String.mk

/-- Sequential fallible comprehension: builds each element in order and
propagates the first raised exception (the effect of a Python `for` loop that
appends computed entries). -/
def mapExcept {α β : Type} (f : α → Except PyExc β) : List α → Except PyExc (List β)
  | [] => .ok []
  | a :: t => do
    let b ← f a
    let bs ← mapExcept f t
    .ok (b :: bs)

/-! ## Identifier resolver `f1/utils.py::find_driver` -/

/-- A driver entry as loaded from the bulk drivers JSON: a dict whose keys may
be absent (the code reads them with `.get(key, '')`). -/
structure DriverDoc where
  driverId : Option String := none
  code : Option String := none
  permanentNumber : Option String := none
  givenName : Option String := none
  familyName : Option String := none
  dateOfBirth : Option String := none
  nationality : Option String := none
  url : Option String := none
  deriving DecidableEq, Repr

/-- `utils.find_driver`: scans the driver list in order; for each entry it
compares the lowercased `driverId`, then the lowercased `code`, then the exact
`permanentNumber` against the identifier; the first entry with a match is
returned, and exhausting the list raises `DriverNotFoundError`.  There is no
comparison against `givenName` or `familyName`. -/
def find_driver (id : String) : List DriverDoc → Except PyExc DriverDoc
  | [] => .error .driverNotFound
  | d :: rest =>
    if strToLower (d.driverId.getD "") == strToLower id then .ok d
    else if strToLower (d.code.getD "") == strToLower id then .ok d
    else if (d.permanentNumber.getD "") == id then .ok d
    else find_driver id rest

/-- The Alonso entry of the bulk driver fixture (mirrors the repository's
mock driver data used by its own test-suite). -/
def alonsoDoc : DriverDoc :=
  { driverId := some "alonso", code := some "ALO", permanentNumber := some "14",
    givenName := some "Fernando", familyName := some "Alonso",
    dateOfBirth := some "1981-07-29", nationality := some "Spanish",
    url := some "http://en.wikipedia.org/wiki/Fernando_Alonso" }

/-! ## Ranking/filtering utility `f1/utils.py` -/

/-- Python list indexing `xs[i]`: a negative index counts from the end; an
index outside the list raises `IndexError`. -/
def pyIndex {α : Type} (xs : List α) (i : Int) : Except PyExc α :=
  let j : Int := if i < 0 then (xs.length : Int) + i else i
  if h : j.toNat < xs.length ∧ 0 ≤ j then .ok (xs.get ⟨j.toNat, h.1⟩)
  else .error .indexError

/-- Python slice `xs[start:]`: a negative start counts from the end and is
clamped at the front; a start beyond the length yields the empty list. -/
def pySliceFrom {α : Type} (xs : List α) (start : Int) : List α :=
  if start < 0 then xs.drop ((xs.length : Int) + start).toNat
  else xs.drop start.toNat

/-- `utils.filter_times`: `'slowest'` → `[sorted_times[len - 1]]`,
`'fastest'` → `[sorted_times[0]]`, `'top'` → `sorted_times[:5]`,
`'bottom'` → `sorted_times[len - 5:]`, anything else (including `None`) →
the full list. -/
def filter_times {α : Type} (sorted_times : List α) (filter : Option String) :
    Except PyExc (List α) :=
  if filter == some "slowest" then
    (pyIndex sorted_times ((sorted_times.length : Int) - 1)).map (fun x => [x])
  else if filter == some "fastest" then
    (pyIndex sorted_times 0).map (fun x => [x])
  else if filter == some "top" then
    .ok (sorted_times.take 5)
  else if filter == some "bottom" then
    .ok (pySliceFrom sorted_times ((sorted_times.length : Int) - 5))
  else
    .ok sorted_times

/-- One entry of `get_best_laps`'s `timings` data: the fields built by
`get_race_results` for a fastest lap. -/
structure BestLapRow where
  rank : Nat
  driver : String
  time : String
  speedKph : Nat
  deriving DecidableEq, Repr

/-- The response envelope whose `data` key `rank_best_lap_times` sorts. -/
structure TimingsRes where
  season : String := ""
  round : String := ""
  race : String := ""
  data : List BestLapRow := []
  deriving DecidableEq, Repr

/-- `utils.rank_best_lap_times`: `sorted(timings['data'], key=itemgetter('Rank'))`
— a stable ascending sort on the `Rank` field (Python's `sorted` is stable;
insertion sort with `≤` realizes the same stable order). -/
def rank_best_lap_times (timings : TimingsRes) : List BestLapRow :=
  List.insertionSort (fun a b => a.rank ≤ b.rank) timings.data

/-! ## Field coercion helpers `f1/utils.py::date_parser`, `time_parser` -/

/-- `strftime('%b')` month abbreviations. -/
def monthAbbr : Nat → String
  | 1 => "Jan" | 2 => "Feb" | 3 => "Mar" | 4 => "Apr"
  | 5 => "May" | 6 => "Jun" | 7 => "Jul" | 8 => "Aug"
  | 9 => "Sep" | 10 => "Oct" | 11 => "Nov" | 12 => "Dec"
  | _ => ""

/-- Zero-padded two-digit rendering used by `strftime('%d')` and friends. -/
def pad2 (n : Nat) : String :=
  if n < 10 then "0" ++ toString n else toString n

/-- `utils.date_parser`: `strptime(date_str, '%Y-%m-%d').strftime('%d %b')`;
a string not of that shape raises `ValueError`. -/
def dateParser (s : String) : Except PyExc String :=
  match splitOnChar '-' s with
  | [y, m, d] =>
    match strToNat? y, strToNat? m, strToNat? d with
    | some _, some mm, some dd =>
      if 1 ≤ mm ∧ mm ≤ 12 ∧ 1 ≤ dd ∧ dd ≤ 31 then .ok (pad2 dd ++ " " ++ monthAbbr mm)
      else .error .valueError
    | _, _, _ => .error .valueError
  | _ => .error .valueError

/-- `utils.time_parser`: `strptime(time_str, '%H:%M:%SZ').strftime('%H:%M UTC')`;
a string not of that shape raises `ValueError`. -/
def timeParser (s : String) : Except PyExc String :=
  match splitOnChar ':' s with
  | [h, m, sz] =>
    match strToNat? h, strToNat? m, strToNat? (sz.dropRight 1) with
    | some hh, some mm, some ss =>
      if hh ≤ 23 ∧ mm ≤ 59 ∧ ss ≤ 61 ∧ sz.takeRight 1 == "Z" then
        .ok (pad2 hh ++ ":" ++ pad2 mm ++ " UTC")
      else .error .valueError
    | _, _, _ => .error .valueError
  | _ => .error .valueError

/-! ## Response normalizer `f1/api.py::get_race_results` -/

/-- A value stored in a normalized result dict. -/
inductive Val where
  | vInt (n : Int)
  | vStr (s : String)
  | vNone
  deriving DecidableEq, Repr

/-- The `<fastestlap>` child of a `<result>` element: its `rank` attribute,
`<time>` child and `<averagespeed>` child.  `int(float(averagespeed))` is
embedded as the already-truncated integer value. -/
structure FastestLapElem where
  rank : Nat
  time : String
  averageSpeed : Nat
  deriving DecidableEq, Repr

/-- A `<result>` element of a race-results document, with the fields the
normalizer reads (numeric attributes are embedded already coerced; the raw
document carries them as digit strings).  `time` is the finishing `<time>`
sibling — present only for finishers, and never read by `get_race_results`. -/
structure ResultElem where
  position : Nat
  points : Nat
  givenName : String
  familyName : String
  driverCode : String
  constructorName : String
  grid : Nat
  laps : Nat
  status : String
  time : Option String := none
  fastestlap : Option FastestLapElem := none
  deriving DecidableEq, Repr

/-- The `<race>` envelope of a race-results document. -/
structure RaceDoc where
  season : String
  round : String
  racename : String
  url : String
  date : String
  time : String
  results : List ResultElem
  deriving DecidableEq, Repr

/-- The normalized race-results record; each `data` / `timings` entry is the
dict the code builds, embedded as an association list so that the key set is
observable. -/
structure RaceResultsRes where
  season : String
  round : String
  race : String
  url : String
  date : String
  time : String
  data : List (List (String × Val))
  timings : List (List (String × Val))
  deriving DecidableEq, Repr

/-- One `data` entry of `get_race_results`, keys in the order the code writes
them.  `driver.givenname.string[0]` raises `IndexError` on an empty name. -/
def raceResultEntry (r : ResultElem) : Except PyExc (List (String × Val)) :=
  if r.givenName.isEmpty then .error .indexError
  else .ok [
    ("Pos", .vInt (r.position : Int)),
    ("Driver", .vStr (r.givenName.take 1 ++ " " ++ r.familyName)),
    ("Team", .vStr r.constructorName),
    ("Start", .vInt (r.grid : Int)),
    ("Laps", .vInt (r.laps : Int)),
    ("Status", .vStr r.status),
    ("Points", .vInt (r.points : Int))]

/-- `api.get_race_results` applied to an already-fetched document (`None`
models an unavailable response and raises `MissingDataError`).  For each
result the code appends a `data` entry, and a `timings` entry whenever a
`<fastestlap>` child exists. -/
def get_race_results (doc : Option RaceDoc) : Except PyExc RaceResultsRes := do
  match doc with
  | none => .error .missingData
  | some race => do
    let d ← dateParser race.date
    let t ← timeParser race.time
    let data ← mapExcept raceResultEntry race.results
    let timings := race.results.filterMap (fun r =>
      r.fastestlap.map (fun fl =>
        [("Rank", Val.vInt (fl.rank : Int)),
         ("Driver", Val.vStr r.driverCode),
         ("Time", Val.vStr fl.time),
         ("Speed (kph)", Val.vInt (fl.averageSpeed : Int))]))
    .ok { season := race.season, round := race.round, race := race.racename,
          url := race.url, date := d ++ " " ++ race.season, time := t,
          data := data, timings := timings }

/-- Race-results fixture: the 2008 round 12 winner (a finisher with a
finishing `<time>` sibling and a fastest lap) and a retirement with
`Status="Accident"` and no finishing `<time>` sibling. -/
def raceFixture : RaceDoc :=
  { season := "2008", round := "12", racename := "Hungarian Grand Prix",
    url := "http://example.org/2008_Hungarian_Grand_Prix",
    date := "2008-08-03", time := "12:00:00Z",
    results := [
      { position := 1, points := 10, givenName := "Lewis", familyName := "Hamilton",
        driverCode := "HAM", constructorName := "McLaren", grid := 1, laps := 70,
        status := "Finished", time := some "1:31:18.555",
        fastestlap := some { rank := 1, time := "1:28.340", averageSpeed := 209 } },
      { position := 14, points := 0, givenName := "Robert", familyName := "Kubica",
        driverCode := "KUB", constructorName := "BMW Sauber", grid := 10, laps := 25,
        status := "Accident", time := none, fastestlap := none }] }

/-! ## Endpoint aggregator `f1/api.py::get_driver_career` and its sub-queries -/

/-- The value a Python coroutine hands back to `asyncio.gather`: either a
proper result or — for `get_driver_wins` / `get_driver_poles`, which `return`
a `MissingDataError()` instance instead of raising it — the exception object
itself. -/
inductive Returned (α : Type) where
  | value (a : α)
  | missingDataObject
  deriving DecidableEq, Repr

/-- A `<race>` element of the `/drivers/{id}/results/1` document. -/
structure WinRaceElem where
  racename : String
  circuitname : String
  date : String
  constructorName : String
  grid : Nat
  laps : Nat
  time : String
  deriving DecidableEq, Repr

/-- The `/drivers/{id}/results/1` document: `MRData` total and race list. -/
structure WinsPayload where
  total : Nat
  races : List WinRaceElem
  deriving DecidableEq, Repr

/-- One normalized row of `get_driver_wins`. -/
structure WinRow where
  race : String
  circuit : String
  date : String
  team : String
  grid : Nat
  laps : Nat
  time : String
  deriving DecidableEq, Repr

/-- Normalized result of `get_driver_wins`. -/
structure WinsRes where
  total : Nat
  data : List WinRow
  deriving DecidableEq, Repr

/-- `api.get_driver_wins`: on an unavailable response the code executes
`return MissingDataError()` — the exception object is RETURNED, not raised. -/
def get_driver_wins (soup : Option WinsPayload) : Except PyExc (Returned WinsRes) :=
  match soup with
  | none => .ok .missingDataObject
  | some p => do
    let data ← mapExcept (fun (r : WinRaceElem) => do
      let d ← dateParser r.date
      pure { race := r.racename, circuit := r.circuitname, date := d,
             team := r.constructorName, grid := r.grid, laps := r.laps,
             time := r.time : WinRow }) p.races
    .ok (.value { total := p.total, data := data })

/-- A `<race>` element of the `/drivers/{id}/qualifying/1` document. -/
structure PoleRaceElem where
  racename : String
  circuitname : String
  date : String
  constructorName : String
  q1 : Option String := none
  q2 : Option String := none
  q3 : Option String := none
  deriving DecidableEq, Repr

/-- The `/drivers/{id}/qualifying/1` document. -/
structure PolesPayload where
  total : Nat
  races : List PoleRaceElem
  deriving DecidableEq, Repr

/-- One normalized row of `get_driver_poles`; absent Q2/Q3 become `None`. -/
structure PoleRow where
  race : String
  circuit : String
  date : String
  team : String
  q1 : Option String
  q2 : Option String
  q3 : Option String
  deriving DecidableEq, Repr

/-- Normalized result of `get_driver_poles`. -/
structure PolesRes where
  total : Nat
  data : List PoleRow
  deriving DecidableEq, Repr

/-- `api.get_driver_poles`: like `get_driver_wins`, RETURNS the
`MissingDataError()` instance on an unavailable response. -/
def get_driver_poles (soup : Option PolesPayload) : Except PyExc (Returned PolesRes) :=
  match soup with
  | none => .ok .missingDataObject
  | some p => do
    let data ← mapExcept (fun (r : PoleRaceElem) => do
      let d ← dateParser r.date
      pure { race := r.racename, circuit := r.circuitname, date := d,
             team := r.constructorName, q1 := r.q1, q2 := r.q2, q3 := r.q3 : PoleRow }) p.races
    .ok (.value { total := p.total, data := data })

/-- The `/drivers/{id}/seasons` document: total and `(year, url)` seasons. -/
structure SeasonsPayload where
  total : Nat
  seasons : List (Nat × String)
  deriving DecidableEq, Repr

/-- Normalized result of `get_driver_seasons`. -/
structure SeasonsRes where
  total : Nat
  data : List (Nat × String)
  deriving DecidableEq, Repr

/-- `api.get_driver_seasons`: raises `MissingDataError` on an unavailable
response. -/
def get_driver_seasons (soup : Option SeasonsPayload) : Except PyExc SeasonsRes :=
  match soup with
  | none => .error .missingData
  | some p => .ok { total := p.total, data := p.seasons }

/-- The `/drivers/{id}/constructors` document. -/
structure TeamsPayload where
  total : Nat
  names : List String
  deriving DecidableEq, Repr

/-- Normalized result of `get_driver_teams`. -/
structure TeamsRes where
  total : Nat
  data : List String
  deriving DecidableEq, Repr

/-- `api.get_driver_teams`: raises `MissingDataError` on an unavailable
response. -/
def get_driver_teams (soup : Option TeamsPayload) : Except PyExc TeamsRes :=
  match soup with
  | none => .error .missingData
  | some p => .ok { total := p.total, data := p.names }

/-- A `<standingslist>` element of `/drivers/{id}/driverStandings/1`. -/
structure ChampStandingElem where
  season : String
  position : Nat
  wins : Nat
  points : Nat
  team : String
  deriving DecidableEq, Repr

/-- The `/drivers/{id}/driverStandings/1` document. -/
structure ChampsPayload where
  total : Nat
  standings : List ChampStandingElem
  deriving DecidableEq, Repr

/-- One normalized row of `get_driver_championship_wins`. -/
structure ChampRow where
  season : String
  pos : Nat
  wins : Nat
  points : Nat
  team : String
  deriving DecidableEq, Repr

/-- Normalized result of `get_driver_championship_wins`. -/
structure ChampsRes where
  total : Nat
  data : List ChampRow
  deriving DecidableEq, Repr

/-- `api.get_driver_championship_wins`: raises `MissingDataError` on an
unavailable response. -/
def get_driver_championship_wins (soup : Option ChampsPayload) :
    Except PyExc ChampsRes :=
  match soup with
  | none => .error .missingData
  | some p =>
    .ok { total := p.total,
          data := p.standings.map (fun s =>
            { season := s.season, pos := s.position, wins := s.wins,
              points := s.points, team := s.team }) }

/-- The five already-fetched responses the career aggregate fans out for
(`None` models an unavailable response for that sub-query). -/
structure CareerEnv where
  wins : Option WinsPayload := none
  poles : Option PolesPayload := none
  seasons : Option SeasonsPayload := none
  teams : Option TeamsPayload := none
  champs : Option ChampsPayload := none
  deriving DecidableEq, Repr

/-- The merged career summary. -/
structure CareerData where
  wins : Nat
  poles : Nat
  championshipsTotal : Nat
  championshipYears : List String
  seasonsTotal : Nat
  seasonYears : List Nat
  teamsTotal : Nat
  teamNames : List String
  deriving DecidableEq, Repr

/-- `api.get_driver_career`: gathers the five sub-queries (an exception raised
by any of them propagates; the embedding propagates in `gather` argument
order — all raising sub-queries raise `MissingDataError`, so the propagated
type does not depend on scheduling) and then merges, subscripting
`wins['total']` and `poles['total']`; when a sub-query RETURNED the
`MissingDataError()` object, that subscript raises `TypeError`. -/
def get_driver_career (env : CareerEnv) : Except PyExc CareerData := do
  let wins ← get_driver_wins env.wins
  let poles ← get_driver_poles env.poles
  let seasons ← get_driver_seasons env.seasons
  let teams ← get_driver_teams env.teams
  let champs ← get_driver_championship_wins env.champs
  match wins with
  | .missingDataObject => .error .typeError
  | .value w =>
    match poles with
    | .missingDataObject => .error .typeError
    | .value p =>
      .ok { wins := w.total, poles := p.total,
            championshipsTotal := champs.total,
            championshipYears := champs.data.map (fun x => x.season),
            seasonsTotal := seasons.total,
            seasonYears := seasons.data.map (fun x => x.1),
            teamsTotal := teams.total,
            teamNames := teams.data }

/-- Fixture: every career sub-query response available. -/
def careerEnvAllOk : CareerEnv :=
  { wins := some { total := 1, races := [
      { racename := "Hungarian Grand Prix", circuitname := "Hungaroring",
        date := "2003-08-24", constructorName := "Renault", grid := 1,
        laps := 70, time := "1:39:01.460" }] },
    poles := some { total := 1, races := [
      { racename := "Hungarian Grand Prix", circuitname := "Hungaroring",
        date := "2003-08-23", constructorName := "Renault",
        q1 := some "1:21.688", q2 := none, q3 := none }] },
    seasons := some { total := 1, seasons := [(2001, "http://example.org/2001")] },
    teams := some { total := 1, names := ["Ferrari"] },
    champs := some { total := 1, standings := [
      { season := "2005", position := 1, wins := 7, points := 133, team := "Renault" }] } }

/-! ## Statistical computation engine `f1/api/stats.py` -/

/-- One row of a loaded session's `laps` frame, restricted to the columns
`tyre_stints` reads. -/
structure LapRec where
  driver : String
  stint : Nat
  compound : String
  lapNumber : Nat
  deriving DecidableEq, Repr

/-- One row of a loaded session's `results` frame, restricted to the columns
`pos_change` reads. -/
structure ResultRow where
  abbreviation : String
  gridPosition : Nat
  position : Nat
  deriving DecidableEq, Repr

/-- One telemetry sample of a lap (distances and times as exact rationals;
the Python floats never hit rounding on the embedded paths). -/
structure TelemetryRow where
  time : ℚ
  distance : ℚ
  speed : ℚ
  x : ℚ
  y : ℚ
  deriving DecidableEq, Repr

/-- A lap object handed to `minisectors`, carrying its driver and the
telemetry `get_telemetry()` yields for it. -/
structure TelLap where
  driver : String
  telemetry : List TelemetryRow
  deriving DecidableEq, Repr

/-- The loaded-session handle passed into the engine: its name, whether the
era supports the F1 lap-data API (`session.f1_api_support`, false before
2018), and its laps/results frames.  `telLaps` are the session's lap objects
as a caller would pass them to `minisectors`. -/
structure Session where
  name : String
  f1ApiSupport : Bool
  laps : List LapRec := []
  results : List ResultRow := []
  telLaps : List TelLap := []
  deriving DecidableEq, Repr

/-- The `(Driver, Stint, Compound)` groupby key of `tyre_stints`. -/
def stintKey (l : LapRec) : String × Nat × String :=
  (l.driver, l.stint, l.compound)

/-- One row of the stint frame produced by `tyre_stints`: a group key and the
count of lap rows in the group. -/
structure StintGroup where
  driver : String
  stint : Nat
  compound : String
  laps : Nat
  deriving DecidableEq, Repr

/-- `stats.tyre_stints`: raises `MissingDataError` when the session does not
support the lap-data API, otherwise groups the laps frame by
`(Driver, Stint, Compound)` and counts rows per group (group keys are kept in
first-occurrence order; pandas sorts them, which no counted quantity depends
on).  With a `driver` argument it resolves the driver against the Ergast
driver list and keeps only that driver's groups (`["code"]` on an entry
without a code key raises `KeyError`). -/
def tyre_stints (s : Session) (driver : Option String)
    (ergastDrivers : List DriverDoc) : Except PyExc (List StintGroup) :=
  if !s.f1ApiSupport then .error .missingData
  else
    let keys := (s.laps.map stintKey).dedup
    let stints := keys.map (fun k =>
      { driver := k.1, stint := k.2.1, compound := k.2.2,
        laps := s.laps.countP (fun l => stintKey l == k) : StintGroup })
    match driver with
    | none => .ok stints
    | some drv => do
      let d ← find_driver drv ergastDrivers
      match d.code with
      | none => .error .keyError
      | some c => .ok (stints.filter (fun g => g.driver == c))

/-- One row of the frame `minisectors` returns. -/
structure MiniRow where
  driver : String
  time : ℚ
  distance : ℚ
  speed : ℚ
  x : ℚ
  y : ℚ
  mSector : Int
  deriving DecidableEq, Repr

/-- `stats.minisectors`: concatenates the telemetry of the given laps with a
`Driver` column and tags each sample with
`mSector = int(distance // (max_distance / 24)) + 1`.  The function performs
no lap-data-support check and has no `MissingDataError` path; the only
failures are numpy's `max` of an empty frame and float floor-division by
zero. -/
def minisectors (laps : List TelLap) : Except PyExc (List MiniRow) :=
  let allRows := (laps.map (fun lap => lap.telemetry.map (fun t => (lap.driver, t)))).flatten
  match allRows.map (fun p => p.2.distance) with
  | [] => .error .valueError
  | d :: ds =>
    let maxDis := ds.foldl max d
    let msLen : ℚ := maxDis / 24
    if msLen == 0 then .error .zeroDivisionError
    else .ok (allRows.map (fun p =>
      { driver := p.1, time := p.2.time, distance := p.2.distance,
        speed := p.2.speed, x := p.2.x, y := p.2.y,
        mSector := Int.floor (p.2.distance / msLen) + 1 }))

/-- One row of the frame `pos_change` returns. -/
structure PosChangeRow where
  driver : String
  start : Int
  finish : Int
  diff : Int
  deriving DecidableEq, Repr

/-- `stats.pos_change`: raises `MissingDataError` only when the session is not
a race — it performs no lap-data-support check.  Rows are sorted by finish
position and `Diff = Start - Finish`. -/
def pos_change (s : Session) : Except PyExc (List PosChangeRow) :=
  if s.name != "Race" then .error .missingData
  else
    let sorted := List.insertionSort (fun a b => a.position ≤ b.position) s.results
    .ok (sorted.map (fun r =>
      { driver := r.abbreviation, start := (r.gridPosition : Int),
        finish := (r.position : Int),
        diff := (r.gridPosition : Int) - (r.position : Int) }))

/-! ## Pit-stop filtering `f1/api/stats.py::filter_pitstops` -/

/-- One row of the pit-stop frame fetched from the Ergast pit-stop endpoint
(`res.content[0]`); the stop duration is a timedelta, embedded in seconds. -/
structure StopRow where
  driverId : String
  stop : Nat
  lap : Nat
  time : String
  duration : ℚ
  deriving DecidableEq, Repr

/-- One presented pit-stop row: the `[Code, Stop, Lap, Duration]` selection
returned by `filter_pitstops`. -/
structure PitRow where
  code : String
  stop : Nat
  lap : Nat
  duration : ℚ
  deriving DecidableEq, Repr

/-- `drv_info[key]` lookup against the dict comprehension
`{d["driverId"]: d for d in drv_lst}` (later entries overwrite earlier). -/
def drvInfoLookup (drvLst : List DriverDoc) (key : String) : Option DriverDoc :=
  drvLst.reverse.find? (fun d => d.driverId == some key)

/-- One folding step of the first-minimum search. -/
def minStep (acc : Option StopRow) (r : StopRow) : Option StopRow :=
  match acc with
  | none => some r
  | some m => if r.duration < m.duration then some r else some m

/-- The first row attaining the minimum duration (pandas `idxmin` keeps the
first occurrence of the minimum). -/
def minDurRow (rows : List StopRow) : Option StopRow :=
  rows.foldl minStep none

/-- The first row attaining the maximum duration (pandas `idxmax`). -/
def maxDurRow (rows : List (StopRow × String × String)) :
    Option (StopRow × String × String) :=
  rows.foldl (fun acc r =>
    match acc with
    | none => some r
    | some m => if m.1.duration < r.1.duration then some r else some m) none

/-- Like `maxDurRow` but for the minimum, on rows extended with No/Code. -/
def minDurRowX (rows : List (StopRow × String × String)) :
    Option (StopRow × String × String) :=
  rows.foldl (fun acc r =>
    match acc with
    | none => some r
    | some m => if r.1.duration < m.1.duration then some r else some m) none

/-- `data.loc[data.groupby("driverId")["duration"].idxmin()]`: one row per
distinct driver id — the first row attaining that driver's minimum duration
(driver ids in first-occurrence order; the subsequent duration sort makes the
intermediate order immaterial). -/
def bestStops (stops : List StopRow) : List StopRow :=
  ((stops.map (fun s => s.driverId)).dedup).filterMap (fun id =>
    minDurRow (stops.filter (fun s => s.driverId == id)))

/-- Attaching the `No` and `Code` columns to one selected row via the
`drv_info` dict: a missing driver entry or a missing `permanentNumber` /
`code` key raises `KeyError`. -/
def pitLookup (drvLst : List DriverDoc) (r : StopRow) :
    Except PyExc (StopRow × String × String) :=
  match drvInfoLookup drvLst r.driverId with
  | none => .error .keyError
  | some d =>
    match d.permanentNumber, d.code with
    | some no, some code => .ok (r, no, code)
    | _, _ => .error .keyError

/-- `stats.filter_pitstops` applied to the already-fetched driver list and
pit-stop frame.  Steps, in code order: build `drv_info` (a `d["driverId"]`
subscript raises `KeyError` when absent); resolve the optional `driver`
argument through `find_driver`; select either that driver's stops or the best
stop per driver; sort by duration (timedeltas already carried as seconds);
attach `No`/`Code` from `drv_info` (missing dict keys raise `KeyError`); then
evaluate `filter.lower()` — an `AttributeError` when `filter` is `None` —
before the `Best` / `Worst` row selection (`idxmin` / `idxmax` of an empty
frame raises `ValueError`). -/
def filter_pitstops (drvLst : List DriverDoc) (stops : List StopRow)
    (filter : Option String) (driver : Option String) :
    Except PyExc (List PitRow) := do
  if drvLst.any (fun d => d.driverId.isNone) then .error .keyError
  else do
    let driverId? ← (match driver with
      | none => pure (none : Option String)
      | some drv => do
        let d ← find_driver drv drvLst
        match d.driverId with
        | none => .error .keyError
        | some i => pure (some i))
    let selected := match driverId? with
      | some i => stops.filter (fun s => s.driverId == i)
      | none => bestStops stops
    let df := List.insertionSort (fun a b => a.duration ≤ b.duration) selected
    let rows ← mapExcept (pitLookup drvLst) df
    match filter with
    | none => .error .attributeError
    | some f => do
      let rows ← if strToLower f == "best" then
          match minDurRowX rows with
          | none => .error .valueError
          | some r => .ok [r]
        else .ok rows
      let rows ← if strToLower f == "worst" then
          match maxDurRow rows with
          | none => .error .valueError
          | some r => .ok [r]
        else .ok rows
      .ok (rows.map (fun r =>
        { code := r.2.2, stop := r.1.stop, lap := r.1.lap,
          duration := r.1.duration }))

/-! ## Fixtures for the statistical computation engine -/

/-- A pre-2018 race session: `f1_api_support` is false, yet laps, results and
telemetry data are present. -/
def pre2018Session : Session :=
  { name := "Race", f1ApiSupport := false,
    laps := [{ driver := "HAM", stint := 1, compound := "SOFT", lapNumber := 1 },
             { driver := "HAM", stint := 1, compound := "SOFT", lapNumber := 2 }],
    results := [{ abbreviation := "VET", gridPosition := 1, position := 2 },
                { abbreviation := "HAM", gridPosition := 2, position := 1 }],
    telLaps := [{ driver := "HAM",
                  telemetry := [
                    { time := 0, distance := 0, speed := 280, x := 0, y := 0 },
                    { time := 30, distance := 1200, speed := 290, x := 5, y := 5 },
                    { time := 60, distance := 2400, speed := 300, x := 9, y := 9 }] }] }

/-- A lap-data-supported race session used to witness the stint-count sum. -/
def supportedSession : Session :=
  { name := "Race", f1ApiSupport := true,
    laps := [{ driver := "HAM", stint := 1, compound := "SOFT", lapNumber := 1 },
             { driver := "HAM", stint := 1, compound := "SOFT", lapNumber := 2 },
             { driver := "HAM", stint := 2, compound := "HARD", lapNumber := 3 },
             { driver := "VER", stint := 1, compound := "MEDIUM", lapNumber := 1 }] }

/-! ## Theorems -/

/-- **C1** (code_bug evidence).  The legacy `f1/fetch.py::fetch` raises an
uncaught `AttributeError` on an HTTP 500 response (calling `.text()` on the
`None` that `send_request` returned) instead of returning the unavailable
sentinel; a transport failure is caught and does return the sentinel, and the
current `f1/api/fetch.py::fetch` returns the sentinel for a 500 as the spec
states. -/
theorem fetch_http500_attribute_error :
    fetch (.response 500 "Internal Server Error") = .error .attributeError ∧
    fetch .transportFail = .ok none ∧
    api_fetch true (.response 500 "text/plain; charset=utf-8" "err") = .ok none ∧
    api_fetch true .transportFail = .ok none :=
  ⟨rfl, rfl, rfl, rfl⟩

/-- **C9**.  `check_status` only ever returns 0, 1 or 2: the branch returning
3 sits under `elif delta.seconds > 15` after `if delta.seconds > 5` failed,
so it is unreachable. -/
theorem check_status_never_bad (res : Option String) (deltaSeconds : Nat) :
    check_status res deltaSeconds ≠ 3 ∧
    (check_status res deltaSeconds = 0 ∨ check_status res deltaSeconds = 1 ∨
      check_status res deltaSeconds = 2) := by
  unfold check_status
  rcases res with _ | v
  · simp
  · by_cases h5 : deltaSeconds > 5
    · simp [h5]
    · have h15 : ¬ deltaSeconds > 15 := by omega
      simp [h5, h15]

/-- **C3** (code_bug evidence).  `find_driver` has no given/family-name
matching phase: the identifier `"Fernando"` — the given name of the unique
fixture driver, and the exact lookup the repository's own
`test_data.py::test_find_driver` expects to succeed — matches no canonical
id, short code or permanent number, and the call raises
`DriverNotFoundError` instead of returning the record. -/
theorem find_driver_given_name_unmatched :
    find_driver "Fernando" [alonsoDoc] = .error .driverNotFound ∧
    alonsoDoc.givenName = some "Fernando" :=
  ⟨rfl, rfl⟩

/-- **C4** (code_bug evidence).  On a fixture race-result document whose
second result has `Status="Accident"` and no finishing `<time>` sibling,
`get_race_results` produces entries whose key set is
`Pos, Driver, Team, Start, Laps, Status, Points`: the status string is
preserved, but no entry — not even the finisher's — carries a `Time` key at
all (the function's own docstring documents a `'Time': str` field). -/
theorem race_results_entries_lack_time :
    (get_race_results (some raceFixture)).map (fun res =>
      (res.data.map (fun e => e.map Prod.fst),
       res.data.map (fun e => e.lookup "Time"),
       res.data.map (fun e => e.lookup "Status")))
    = .ok ([["Pos", "Driver", "Team", "Start", "Laps", "Status", "Points"],
            ["Pos", "Driver", "Team", "Start", "Laps", "Status", "Points"]],
           [none, none],
           [some (.vStr "Finished"), some (.vStr "Accident")]) := by
  decide

/-- **C2** (code_bug evidence).  When the wins sub-query's response is
unavailable, `get_driver_wins` RETURNS the `MissingDataError()` instance, so
`get_driver_career` subscripts the exception object and fails with
`TypeError` — not `MissingDataError`.  A seasons sub-query failure, by
contrast, does surface as `MissingDataError`, and with all five responses
available the aggregate succeeds. -/
theorem career_wins_failure_is_type_error :
    get_driver_career { careerEnvAllOk with wins := none } = .error .typeError ∧
    get_driver_career { careerEnvAllOk with poles := none } = .error .typeError ∧
    get_driver_career { careerEnvAllOk with seasons := none } = .error .missingData ∧
    get_driver_career { careerEnvAllOk with teams := none } = .error .missingData ∧
    get_driver_career { careerEnvAllOk with champs := none } = .error .missingData ∧
    (get_driver_career careerEnvAllOk).isOk = true := by
  decide

/-- **C6** (counterexample).  On the four-element ranked sequence
`[1, 2, 3, 4]`, `filter_times` with `'bottom'` returns `[4]` — a single
element, not the whole sequence of length `min 5 4`. -/
theorem filter_times_bottom_counterexample :
    filter_times [1, 2, 3, 4] (some "bottom") = .ok [4] ∧
    ([4] : List Nat).length ≠ min 5 [1, 2, 3, 4].length := by
  decide

/-- **C6** (amended).  `'bottom'` evaluates `sorted_times[len - 5:]` with
Python's negative-index wrap-around: the result is the suffix obtained by
dropping `len - 5` elements when `len ≥ 5` (the last five), and by dropping
`2·len - 5` (clamped at 0) elements when `len < 5` — e.g. only the last one
of four — never more than the sequence holds. -/
theorem filter_times_bottom_eq_drop {α : Type} (xs : List α) :
    filter_times xs (some "bottom") =
      .ok (xs.drop (if 5 ≤ xs.length then xs.length - 5 else 2 * xs.length - 5)) := by
  have hb : filter_times xs (some "bottom") =
      .ok (pySliceFrom xs ((xs.length : Int) - 5)) := rfl
  rw [hb]
  unfold pySliceFrom
  rcases le_or_lt 5 xs.length with h | h
  · have h1 : ¬ ((xs.length : Int) - 5 < 0) := by omega
    rw [if_neg h1, if_pos h]
    have h2 : ((xs.length : Int) - 5).toNat = xs.length - 5 := by omega
    rw [h2]
  · have h1 : (xs.length : Int) - 5 < 0 := by omega
    have h3 : ¬ 5 ≤ xs.length := by omega
    rw [if_pos h1, if_neg h3]
    have h2 : ((xs.length : Int) + ((xs.length : Int) - 5)).toNat = 2 * xs.length - 5 := by
      omega
    rw [h2]

/-- **C7**.  Ranking best-lap timings and filtering with `'top'` yields a
prefix of the ranked sequence of length `min 5 (number of entries)`. -/
theorem rank_top_prefix (timings : TimingsRes) :
    ∃ r, filter_times (rank_best_lap_times timings) (some "top") = .ok r ∧
      r.length = min 5 timings.data.length ∧ r <+: rank_best_lap_times timings := by
  refine ⟨(rank_best_lap_times timings).take 5, rfl, ?_, List.take_prefix _ _⟩
  rw [List.length_take]
  unfold rank_best_lap_times
  rw [List.length_insertionSort]

/-! ### Monad-reduction helpers for `Except` -/

/-- `pure a >>= k` reduces on `Except`. -/
@[simp] theorem exceptPureBind {α β : Type} (a : α) (k : α → Except PyExc β) :
    ((pure a : Except PyExc α) >>= k) = k a := rfl

/-- `.ok a >>= k` reduces on `Except`. -/
@[simp] theorem exceptOkBind {α β : Type} (a : α) (k : α → Except PyExc β) :
    ((Except.ok a : Except PyExc α) >>= k) = k a := rfl

/-- `.error e >>= k` propagates on `Except`. -/
@[simp] theorem exceptErrBind {α β : Type} (e : PyExc) (k : α → Except PyExc β) :
    ((Except.error e : Except PyExc α) >>= k) = .error e := rfl

/-- **C5** (amended, part 1).  For a session whose era does not support lap
data, `tyre_stints` fails fast with `MissingDataError`, while `pos_change` —
which checks only the session type — still returns a normal result for a
race. -/
theorem stats_engine_gate (s : Session) (drv : Option String) (ds : List DriverDoc)
    (h : s.f1ApiSupport = false) :
    tyre_stints s drv ds = .error .missingData ∧
    (s.name = "Race" → ∃ rows, pos_change s = .ok rows) := by
  constructor
  · unfold tyre_stints
    simp [h]
  · intro hn
    have hpc : pos_change s = .ok
        ((List.insertionSort (fun a b => a.position ≤ b.position) s.results).map
          (fun r => { driver := r.abbreviation, start := (r.gridPosition : Int),
                      finish := (r.position : Int),
                      diff := (r.gridPosition : Int) - (r.position : Int) })) := by
      unfold pos_change
      simp [hn]
    exact ⟨_, hpc⟩

/-- Closed instance of `stats_engine_gate` at the pre-2018 fixture session. -/
theorem stats_engine_gate_witness :
    pre2018Session.f1ApiSupport = false ∧
    (tyre_stints pre2018Session none [] = .error .missingData ∧
      (pre2018Session.name = "Race" →
        ∃ rows, pos_change pre2018Session = .ok rows)) :=
  ⟨rfl, stats_engine_gate pre2018Session none [] rfl⟩

/-- **C5** (counterexample).  The pre-2018 fixture session does not support
lap data, yet `minisectors` computes and returns the tagged telemetry and
`pos_change` returns the position changes: neither raises
`MissingDataError`, refuting "every function of the engine fails fast". -/
theorem minisectors_pos_change_no_gate :
    pre2018Session.f1ApiSupport = false ∧
    minisectors pre2018Session.telLaps = .ok [
      { driver := "HAM", time := 0, distance := 0, speed := 280, x := 0, y := 0,
        mSector := 1 },
      { driver := "HAM", time := 30, distance := 1200, speed := 290, x := 5, y := 5,
        mSector := 13 },
      { driver := "HAM", time := 60, distance := 2400, speed := 300, x := 9, y := 9,
        mSector := 25 }] ∧
    pos_change pre2018Session = .ok [
      { driver := "HAM", start := 2, finish := 1, diff := 1 },
      { driver := "VET", start := 1, finish := 2, diff := -1 }] := by
  refine ⟨rfl, ?_, by decide⟩
  unfold minisectors pre2018Session
  norm_num [max_def]

/-! ### Counting laps across groupby groups -/

/-- Over a duplicate-free key list, the indicator sums to 1 exactly when the
key occurs. -/
theorem sum_map_ite_one {K : Type} [BEq K] [LawfulBEq K] (a : K) (ks : List K)
    (hnd : ks.Nodup) :
    (ks.map (fun k => if a == k then 1 else 0)).sum
      = if a ∈ ks then 1 else 0 := by
  induction ks with
  | nil => simp
  | cons k t ih =>
    rcases List.nodup_cons.mp hnd with ⟨hk, ht⟩
    rw [List.map_cons, List.sum_cons, ih ht]
    by_cases hak : a = k
    · subst hak
      rw [if_pos (beq_self_eq_true a), if_neg hk, if_pos (List.mem_cons_self a t)]
    · rw [if_neg (by simp [hak] : ¬ ((a == k) = true)), Nat.zero_add]
      have hmm : (a ∈ k :: t) ↔ (a ∈ t) := by
        rw [List.mem_cons]
        exact ⟨fun h => h.resolve_left hak, Or.inr⟩
      by_cases hat : a ∈ t
      · rw [if_pos hat, if_pos (hmm.mpr hat)]
      · rw [if_neg hat, if_neg (fun hc => hat (hmm.mp hc))]

/-- Sums distribute over pointwise addition under `map`. -/
theorem sum_map_add_distrib {β : Type} (l : List β) (f g : β → ℕ) :
    (l.map (fun x => f x + g x)).sum = (l.map f).sum + (l.map g).sum := by
  induction l with
  | nil => simp
  | cons x t ih =>
    simp [ih]
    omega

/-- Partition counting: when `ks` is duplicate-free and covers every key of
interest occurring in `laps`, the per-group counts over the groups selected
by `P` sum to the count of elements whose key satisfies `P`. -/
theorem countP_partition {α K : Type} [BEq K] [LawfulBEq K] (key : α → K) (P : K → Bool)
    (ks : List K) (hnd : ks.Nodup) :
    ∀ laps : List α, (∀ l ∈ laps, P (key l) = true → key l ∈ ks) →
      ((ks.filter P).map (fun k => laps.countP (fun l => key l == k))).sum
        = laps.countP (fun l => P (key l)) := by
  intro laps
  induction laps with
  | nil =>
    intro _
    simp
  | cons l rest ih =>
    intro hcov
    have hrec := ih (fun x hx => hcov x (List.mem_cons_of_mem _ hx))
    simp only [List.countP_cons]
    rw [sum_map_add_distrib, hrec, sum_map_ite_one (key l) _ (hnd.filter P)]
    by_cases hpl : P (key l) = true
    · have hmem : key l ∈ ks.filter P :=
        List.mem_filter.mpr ⟨hcov l (List.mem_cons_self _ _) hpl, hpl⟩
      simp [hpl, hmem]
    · have hmem : key l ∉ ks.filter P := fun hm => hpl (List.mem_filter.mp hm).2
      simp [hpl, hmem]

/-- **C8**.  Whenever `tyre_stints` succeeds (no driver filter), the per-stint
lap counts of any driver's `(driver, stint, compound)` groups sum to that
driver's total number of lap rows in the session. -/
theorem tyre_stints_sum (s : Session) (ds : List DriverDoc) (gs : List StintGroup)
    (d : String) (h : tyre_stints s none ds = .ok gs) :
    ((gs.filter (fun g => g.driver == d)).map (fun g => g.laps)).sum
      = (s.laps.filter (fun l => l.driver == d)).length := by
  unfold tyre_stints at h
  by_cases hs : s.f1ApiSupport
  · simp only [hs, Bool.not_true, Bool.false_eq_true, if_false] at h
    rw [Except.ok.injEq] at h
    subst h
    rw [List.filter_map, List.map_map]
    have hpart := countP_partition stintKey (fun k => k.1 == d)
      ((s.laps.map stintKey).dedup) (List.nodup_dedup _) s.laps
      (fun l hl _ => List.mem_dedup.mpr (List.mem_map_of_mem _ hl))
    rw [← List.countP_eq_length_filter]
    simp only [Function.comp_def]
    exact hpart
  · simp [hs] at h

/-- Closed instance of `tyre_stints_sum` at the supported fixture session. -/
theorem tyre_stints_sum_witness :
    tyre_stints supportedSession none [] = .ok [
      { driver := "HAM", stint := 1, compound := "SOFT", laps := 2 },
      { driver := "HAM", stint := 2, compound := "HARD", laps := 1 },
      { driver := "VER", stint := 1, compound := "MEDIUM", laps := 1 }] ∧
    ((([{ driver := "HAM", stint := 1, compound := "SOFT", laps := 2 },
        { driver := "HAM", stint := 2, compound := "HARD", laps := 1 },
        { driver := "VER", stint := 1, compound := "MEDIUM", laps := 1 }] :
        List StintGroup).filter (fun g => g.driver == "HAM")).map
         (fun g => g.laps)).sum
      = (supportedSession.laps.filter (fun l => l.driver == "HAM")).length :=
  ⟨by decide, tyre_stints_sum supportedSession [] _ "HAM" (by decide)⟩

/-! ### Lemmas about the pit-stop pipeline -/

/-- The first-minimum fold only ever produces a row of the list or the
accumulator. -/
theorem foldl_minStep_mem (rows : List StopRow) :
    ∀ (acc : Option StopRow) (r : StopRow),
      rows.foldl minStep acc = some r → r ∈ rows ∨ acc = some r := by
  induction rows with
  | nil =>
    intro acc r h
    exact Or.inr h
  | cons x t ih =>
    intro acc r h
    rcases ih (minStep acc x) r h with hmem | hacc
    · exact Or.inl (List.mem_cons_of_mem _ hmem)
    · rcases acc with _ | m
      · have hx : x = r := by
          injection hacc
        exact Or.inl (hx ▸ List.mem_cons_self _ _)
      · have hstep : minStep (some m) x =
            if x.duration < m.duration then some x else some m := rfl
        rw [hstep] at hacc
        by_cases hlt : x.duration < m.duration
        · rw [if_pos hlt] at hacc
          have hx : x = r := by injection hacc
          exact Or.inl (hx ▸ List.mem_cons_self _ _)
        · rw [if_neg hlt] at hacc
          exact Or.inr hacc

/-- A produced minimum row belongs to the searched list. -/
theorem minDurRow_mem (rows : List StopRow) (r : StopRow)
    (h : minDurRow rows = some r) : r ∈ rows := by
  rcases foldl_minStep_mem rows none r h with hmem | hacc
  · exact hmem
  · exact Option.noConfusion hacc

/-- Every best stop comes from the original stop list. -/
theorem bestStops_subset (stops : List StopRow) :
    ∀ r ∈ bestStops stops, r ∈ stops := by
  intro r hr
  unfold bestStops at hr
  rcases List.mem_filterMap.mp hr with ⟨id, _, hmin⟩
  exact (List.mem_filter.mp (minDurRow_mem _ _ hmin)).1

/-- `mapExcept` succeeds when every element does. -/
theorem mapExcept_ok_of_forall {α β : Type} (f : α → Except PyExc β) :
    ∀ l : List α, (∀ a ∈ l, ∃ b, f a = .ok b) → ∃ bs, mapExcept f l = .ok bs := by
  intro l
  induction l with
  | nil =>
    intro _
    exact ⟨[], rfl⟩
  | cons a t ih =>
    intro h
    rcases h a (List.mem_cons_self _ _) with ⟨b, hb⟩
    rcases ih (fun x hx => h x (List.mem_cons_of_mem _ hx)) with ⟨bs, hbs⟩
    refine ⟨b :: bs, ?_⟩
    unfold mapExcept
    rw [hb]
    simp [hbs]

/-- **C10**.  With well-formed driver data, calling `filter_pitstops` with the
default `filter=None` (and default `driver=None`) always raises
`AttributeError` from `filter.lower()` — reached after the per-driver best
selection but before the `Best`/`Worst` row selection — so the documented
default behaviour of returning the best stop per driver is unreachable. -/
theorem filter_pitstops_default_raises (drvLst : List DriverDoc) (stops : List StopRow)
    (hwf : ∀ d ∈ drvLst, d.driverId.isSome ∧ d.permanentNumber.isSome ∧ d.code.isSome)
    (hcov : ∀ st ∈ stops, ∃ d ∈ drvLst, d.driverId = some st.driverId) :
    filter_pitstops drvLst stops none none = .error .attributeError := by
  unfold filter_pitstops
  have h1 : drvLst.any (fun d => d.driverId.isNone) = false := by
    rw [List.any_eq_false]
    intro d hd
    have h := (hwf d hd).1
    cases hdi : d.driverId with
    | none => rw [hdi] at h; simp at h
    | some v => simp [hdi]
  simp only [h1, Bool.false_eq_true, if_false, exceptPureBind]
  have hall : ∀ r ∈ List.insertionSort (fun a b => a.duration ≤ b.duration)
      (bestStops stops), ∃ b, pitLookup drvLst r = .ok b := by
    intro r hr
    have hrs : r ∈ stops :=
      bestStops_subset stops r (((List.perm_insertionSort _ _).mem_iff).mp hr)
    obtain ⟨d0, hd0, hid0⟩ := hcov r hrs
    have hex : ∃ x ∈ drvLst.reverse, (x.driverId == some r.driverId) = true :=
      ⟨d0, List.mem_reverse.mpr hd0, by rw [hid0]; exact beq_self_eq_true _⟩
    obtain ⟨d1, hd1⟩ := Option.isSome_iff_exists.mp (List.find?_isSome.mpr hex)
    have hd1mem : d1 ∈ drvLst := List.mem_reverse.mp (List.mem_of_find?_eq_some hd1)
    obtain ⟨_, hpn, hcode⟩ := hwf d1 hd1mem
    obtain ⟨no, hno⟩ := Option.isSome_iff_exists.mp hpn
    obtain ⟨code, hcd⟩ := Option.isSome_iff_exists.mp hcode
    refine ⟨(r, no, code), ?_⟩
    unfold pitLookup drvInfoLookup
    rw [hd1]
    show (match d1.permanentNumber, d1.code with
      | some no, some code => Except.ok (r, no, code)
      | _, _ => Except.error PyExc.keyError) = Except.ok (r, no, code)
    rw [hno, hcd]
  obtain ⟨rows, hrows⟩ := mapExcept_ok_of_forall (pitLookup drvLst) _ hall
  rw [hrows]
  rfl

/-- Fixture driver list for the pit-stop witness. -/
def pitDrvFixture : List DriverDoc := [alonsoDoc]

/-- Fixture pit-stop frame for the pit-stop witness. -/
def pitStopsFixture : List StopRow :=
  [{ driverId := "alonso", stop := 1, lap := 12, time := "14:05:11", duration := 22 }]

/-- Closed instance of `filter_pitstops_default_raises` at the fixtures. -/
theorem filter_pitstops_default_raises_witness :
    (∀ d ∈ pitDrvFixture, d.driverId.isSome ∧ d.permanentNumber.isSome ∧ d.code.isSome) ∧
    (∀ st ∈ pitStopsFixture, ∃ d ∈ pitDrvFixture, d.driverId = some st.driverId) ∧
    filter_pitstops pitDrvFixture pitStopsFixture none none = .error .attributeError :=
  ⟨by decide, by decide,
    filter_pitstops_default_raises pitDrvFixture pitStopsFixture (by decide) (by decide)⟩

end F1Bot
